import Mathlib

/-!
Shallow embedding of `src/main.py` (Smart Contract Security Auditor).

The core of the program is `parse_crew_output`, which extracts structured
findings from a model transcript using four `re` patterns (compiled with
`re.DOTALL` and/or `re.IGNORECASE`), and the prompt builders in
`create_audit_crew`, which embed `contract_code[:2000]` into fixed task
descriptions.  This file models Python strings as `String`/`List Char`,
Python `re` lazy/greedy quantifiers, literal alternation and lookaheads as
small backtracking continuation-passing matchers, and each of the four
source patterns as an explicit chain of those matchers.
-/

/-- The Python `\s` character class, restricted to its ASCII members
(` `, `\t`, `\n`, `\r`, `\x0b`, `\x0c`); the transcripts in question are
ASCII. Also the set stripped by Python `str.strip()`. -/
def isPySpace (c : Char) : Bool :=
  c = ' ' || c = '\t' || c = '\n' || c = '\r' || c = '\x0b' || c = '\x0c'

/-- Python `str.strip()` on a character list: drop `\s` characters from
both ends. -/
def pyStrip (l : List Char) : List Char :=
  ((l.dropWhile isPySpace).reverse.dropWhile isPySpace).reverse

/-- Python `str.strip()` on a `String`. -/
def pyStripS (l : List Char) : String :=
  String.mk (pyStrip l)

/-- Python `str.lower()` restricted to ASCII (`Char.toLower` per
character).  On non-ASCII input CPython can differ: `str.lower` of
U+0130 is the two-code-point sequence `i` + U+0307, which no per-character
map produces; the two agree on ASCII strings. -/
def lowerS (s : String) : String :=
  String.mk (s.data.map Char.toLower)

/-- Python `int(...)` applied to a nonempty decimal-digit string
(the only way the source calls it: on a `(\d+)` capture). -/
def digitsVal : List Char → Nat → Nat
  | [], acc => acc
  | c :: r, acc => digitsVal r (acc * 10 + (c.toNat - 48))

def toNatDigits (l : List Char) : Nat := digitsVal l 0

/-- Python slicing `s[:n]` (by characters). -/
def pyTake (n : Nat) (s : String) : String :=
  String.mk (s.data.take n)

/-! ### Regex building blocks

Each combinator consumes from the position `s` and passes the remaining
input (and the captured text where there is a group) to a continuation
`k`; alternatives are tried in the priority order Python `re` uses, and a
failing continuation causes backtracking into the previous quantifier,
exactly as in a backtracking regex engine. -/

/-- Match a literal, case-insensitively (all literal text in the source
patterns is matched under `re.IGNORECASE`, except pattern 5 whose only
literal is `.` on which case is irrelevant).  Case folding here is the
ASCII `Char.toLower`; CPython `re.IGNORECASE` applies Unicode simple
case folding, which agrees with this on ASCII text but accepts more on
non-ASCII text (e.g. U+0130 matches `i`).  Statements below that depend
on case-insensitive matching are therefore made for ASCII transcripts or
evaluated on ASCII inputs. -/
def litCI {α : Type} (pat : List Char) (s : List Char)
    (k : List Char → Option α) : Option α :=
  match pat, s with
  | [], rest => k rest
  | _ :: _, [] => none
  | p :: ps, c :: cs => if c.toLower = p.toLower then litCI ps cs k else none

/-- Does `p` match case-insensitively at the start of `s`? (used for
zero-width lookaheads).  Same ASCII case folding as `litCI`, with the
same caveat about non-ASCII Unicode case variants. -/
def ciStarts : List Char → List Char → Bool
  | [], _ => true
  | _ :: _, [] => false
  | p :: ps, c :: cs => c.toLower = p.toLower && ciStarts ps cs

/-- Greedy `cls*`: longest match first, backtracking on continuation
failure. -/
def starGreedy {α : Type} (cls : Char → Bool) (s : List Char)
    (k : List Char → Option α) : Option α :=
  match s with
  | [] => k []
  | c :: cs =>
    if cls c then
      match starGreedy cls cs k with
      | some r => some r
      | none => k (c :: cs)
    else k (c :: cs)

/-- Greedy `cls+` without capture (the `\d+` of the source patterns). -/
def plusGreedy {α : Type} (cls : Char → Bool) (s : List Char)
    (k : List Char → Option α) : Option α :=
  match s with
  | [] => none
  | c :: cs => if cls c then starGreedy cls cs k else none

/-- Greedy `(cls+)` with capture, helper: `acc` holds the reversed
characters consumed so far. -/
def starGreedyCap {α : Type} (cls : Char → Bool) (acc : List Char)
    (s : List Char) (k : List Char → List Char → Option α) : Option α :=
  match s with
  | [] => k acc.reverse []
  | c :: cs =>
    if cls c then
      match starGreedyCap cls (c :: acc) cs k with
      | some r => some r
      | none => k acc.reverse (c :: cs)
    else k acc.reverse (c :: cs)

/-- Greedy `(cls+)` with capture (the `(\d+)` of the quality-score
pattern). -/
def plusGreedyCap {α : Type} (cls : Char → Bool) (s : List Char)
    (k : List Char → List Char → Option α) : Option α :=
  match s with
  | [] => none
  | c :: cs => if cls c then starGreedyCap cls [c] cs k else none

/-- Lazy `(.+?)` under `re.DOTALL` (`.` matches every character,
newlines included), helper: shortest match first, extending one character
at a time while the continuation fails. `acc` holds the reversed
characters consumed so far. -/
def plusLazyCap {α : Type} (acc : List Char) (s : List Char)
    (k : List Char → List Char → Option α) : Option α :=
  match k acc.reverse s with
  | some r => some r
  | none =>
    match s with
    | [] => none
    | c :: cs => plusLazyCap (c :: acc) cs k

/-- Lazy `(.+?)` under `re.DOTALL`: at least one character. -/
def dotPlusLazy {α : Type} (s : List Char)
    (k : List Char → List Char → Option α) : Option α :=
  match s with
  | [] => none
  | c :: cs => plusLazyCap [c] cs k

/-- Capturing alternation of case-insensitive literals (the
`(Critical|High|Medium|Low)` of the vulnerability pattern): alternatives
tried left to right, the
captured text is the input text actually matched (verbatim, possibly in a
different case than the pattern); a failing continuation backtracks into
later alternatives.  The folding is ASCII via `ciStarts`: CPython would
additionally accept non-ASCII Unicode case variants of the alternatives
(e.g. a severity spelled with U+0130 in place of `I`), so properties of
the accepted severities are stated for ASCII transcripts only. -/
def altCapCI {α : Type} (pats : List (List Char)) (s : List Char)
    (k : List Char → List Char → Option α) : Option α :=
  match pats with
  | [] => none
  | p :: ps =>
    if ciStarts p s then
      match k (s.take p.length) (s.drop p.length) with
      | some r => some r
      | none => altCapCI ps s k
    else altCapCI ps s k

/-- Optional single character, case-insensitive (the `S?` of the
recommendations pattern): greedy, i.e. with the character first,
backtracking to without. -/
def optCI {α : Type} (c : Char) (s : List Char)
    (k : List Char → Option α) : Option α :=
  match s with
  | [] => k []
  | x :: xs =>
    if x.toLower = c.toLower then
      match k xs with
      | some r => some r
      | none => k (x :: xs)
    else k (x :: xs)

/-- Python `$` without `re.MULTILINE`: end of input, or just before a
newline that is the last character. -/
def atDollar (s : List Char) : Bool :=
  match s with
  | [] => true
  | ['\n'] => true
  | _ => false

/-- Lookahead `(?=VULNERABILITY|OPTIMIZATION|QUALITY|EXECUTIVE|$)` of the
vulnerability pattern. -/
def lookVOQE (s : List Char) : Bool :=
  ciStarts "VULNERABILITY".data s || ciStarts "OPTIMIZATION".data s ||
  ciStarts "QUALITY".data s || ciStarts "EXECUTIVE".data s || atDollar s

/-- Lookahead `(?=OPTIMIZATION|QUALITY|EXECUTIVE|$)` of the optimization
pattern. -/
def lookOQE (s : List Char) : Bool :=
  ciStarts "OPTIMIZATION".data s || ciStarts "QUALITY".data s ||
  ciStarts "EXECUTIVE".data s || atDollar s

/-- Lookahead `(?=COMPLIANCE|EXECUTIVE|$)` of the recommendations-section
pattern. -/
def lookCE (s : List Char) : Bool :=
  ciStarts "COMPLIANCE".data s || ciStarts "EXECUTIVE".data s || atDollar s

/-- Does `\d+\.` match at the start of `s`? Since extra digits can only be
followed by more digits, this holds iff `s` starts with a digit and the
first non-digit character is `.`. -/
def digitsThenDot (s : List Char) : Bool :=
  match s with
  | [] => false
  | c :: _ =>
    c.isDigit &&
      (match s.dropWhile Char.isDigit with
       | '.' :: _ => true
       | _ => false)

/-- Lookahead `(?=\d+\.|$)` of the numbered-recommendation pattern. -/
def lookNumItem (s : List Char) : Bool :=
  digitsThenDot s || atDollar s

/-! ### The four source patterns -/

/-- The four groups of one vulnerability match, in the order of
`match[0] .. match[3]` in the source. -/
structure VulnRaw where
  g1 : List Char
  g2 : List Char
  g3 : List Char
  g4 : List Char
deriving DecidableEq

/-- Attempt of the source pattern
`VULNERABILITY \d+: (.+?) - (Critical|High|Medium|Low)\s*Description: (.+?)\s*Fix: (.+?)(?=VULNERABILITY|OPTIMIZATION|QUALITY|EXECUTIVE|$)`
(flags `re.DOTALL | re.IGNORECASE`) anchored at the current position;
on success returns the four captures and the rest of the input after the
match (the lookahead is zero-width). -/
def matchVulnAt (s : List Char) : Option (VulnRaw × List Char) :=
  litCI "VULNERABILITY ".data s fun s1 =>
  plusGreedy Char.isDigit s1 fun s2 =>
  litCI ": ".data s2 fun s3 =>
  dotPlusLazy s3 fun g1 s4 =>
  litCI " - ".data s4 fun s5 =>
  altCapCI ["Critical".data, "High".data, "Medium".data, "Low".data] s5 fun g2 s6 =>
  starGreedy isPySpace s6 fun s7 =>
  litCI "Description: ".data s7 fun s8 =>
  dotPlusLazy s8 fun g3 s9 =>
  starGreedy isPySpace s9 fun s10 =>
  litCI "Fix: ".data s10 fun s11 =>
  dotPlusLazy s11 fun g4 s12 =>
  if lookVOQE s12 then some (⟨g1, g2, g3, g4⟩, s12) else none

/-- Scan implementing `re.findall`: try the pattern at each position left to right;
after a match, continue at the end of the match (non-overlapping).
`fuel` is an upper bound on the number of steps; every step strictly
shortens the input (each match consumes at least its leading literal), so
`length + 1` fuel is always enough. -/
def scanVuln : Nat → List Char → List VulnRaw
  | 0, _ => []
  | fuel + 1, s =>
    match matchVulnAt s with
    | some (m, rest) => m :: scanVuln fuel rest
    | none =>
      match s with
      | [] => []
      | _ :: t => scanVuln fuel t

/-- Embeds `re.findall(vuln_pattern, result_text, re.DOTALL | re.IGNORECASE)`. -/
def findallVuln (t : List Char) : List VulnRaw :=
  scanVuln (t.length + 1) t

/-- The four groups of one optimization match, in the order of
`match[0] .. match[3]` in the source. -/
structure OptRaw where
  g1 : List Char
  g2 : List Char
  g3 : List Char
  g4 : List Char
deriving DecidableEq

/-- Attempt of the source pattern
`OPTIMIZATION \d+: (.+?)\s*Location: (.+?)\s*Technique: (.+?)\s*Savings: (.+?)(?=OPTIMIZATION|QUALITY|EXECUTIVE|$)`
(flags `re.DOTALL | re.IGNORECASE`) anchored at the current position. -/
def matchOptAt (s : List Char) : Option (OptRaw × List Char) :=
  litCI "OPTIMIZATION ".data s fun s1 =>
  plusGreedy Char.isDigit s1 fun s2 =>
  litCI ": ".data s2 fun s3 =>
  dotPlusLazy s3 fun g1 s4 =>
  starGreedy isPySpace s4 fun s5 =>
  litCI "Location: ".data s5 fun s6 =>
  dotPlusLazy s6 fun g2 s7 =>
  starGreedy isPySpace s7 fun s8 =>
  litCI "Technique: ".data s8 fun s9 =>
  dotPlusLazy s9 fun g3 s10 =>
  starGreedy isPySpace s10 fun s11 =>
  litCI "Savings: ".data s11 fun s12 =>
  dotPlusLazy s12 fun g4 s13 =>
  if lookOQE s13 then some (⟨g1, g2, g3, g4⟩, s13) else none

def scanOpt : Nat → List Char → List OptRaw
  | 0, _ => []
  | fuel + 1, s =>
    match matchOptAt s with
    | some (m, rest) => m :: scanOpt fuel rest
    | none =>
      match s with
      | [] => []
      | _ :: t => scanOpt fuel t

/-- Embeds `re.findall(opt_pattern, result_text, re.DOTALL | re.IGNORECASE)`. -/
def findallOpt (t : List Char) : List OptRaw :=
  scanOpt (t.length + 1) t

/-- Attempt of the source pattern `QUALITY SCORE: (\d+)`
(flag `re.IGNORECASE`) at the current position, returning the digit
capture. -/
def matchScoreAt (s : List Char) : Option (List Char) :=
  litCI "QUALITY SCORE: ".data s fun s1 =>
  plusGreedyCap Char.isDigit s1 fun g _ => some g

def scanScore : Nat → List Char → Option (List Char)
  | 0, _ => none
  | fuel + 1, s =>
    match matchScoreAt s with
    | some g => some g
    | none =>
      match s with
      | [] => none
      | _ :: t => scanScore fuel t

/-- Embeds the search for `QUALITY SCORE: (\d+)` under `re.IGNORECASE`:
leftmost match wins. -/
def searchScore (t : List Char) : Option (List Char) :=
  scanScore (t.length + 1) t

/-- Attempt of the source pattern
`RECOMMENDATIONS?:(.+?)(?=COMPLIANCE|EXECUTIVE|$)`
(flags `re.DOTALL | re.IGNORECASE`) at the current position, returning the
section-body capture. -/
def matchRecAt (s : List Char) : Option (List Char) :=
  litCI "RECOMMENDATION".data s fun s1 =>
  optCI 'S' s1 fun s2 =>
  litCI ":".data s2 fun s3 =>
  dotPlusLazy s3 fun g s4 =>
  if lookCE s4 then some g else none

def scanRec : Nat → List Char → Option (List Char)
  | 0, _ => none
  | fuel + 1, s =>
    match matchRecAt s with
    | some g => some g
    | none =>
      match s with
      | [] => none
      | _ :: t => scanRec fuel t

/-- Embeds `re.search(rec_pattern, result_text, re.DOTALL | re.IGNORECASE)`. -/
def searchRec (t : List Char) : Option (List Char) :=
  scanRec (t.length + 1) t

/-- Attempt of the source pattern `\d+\.\s*(.+?)(?=\d+\.|$)`
(flag `re.DOTALL`) at the current position. -/
def matchRecItemAt (s : List Char) : Option (List Char × List Char) :=
  plusGreedy Char.isDigit s fun s1 =>
  litCI ".".data s1 fun s2 =>
  starGreedy isPySpace s2 fun s3 =>
  dotPlusLazy s3 fun g s4 =>
  if lookNumItem s4 then some (g, s4) else none

def scanRecItem : Nat → List Char → List (List Char)
  | 0, _ => []
  | fuel + 1, s =>
    match matchRecItemAt s with
    | some (g, rest) => g :: scanRecItem fuel rest
    | none =>
      match s with
      | [] => []
      | _ :: t => scanRecItem fuel t

/-- Embeds `re.findall` of the numbered-item pattern over `rec_text`
(flag `re.DOTALL`). -/
def findallRecItem (t : List Char) : List (List Char) :=
  scanRecItem (t.length + 1) t

/-! ### `parse_crew_output` -/

/-- One vulnerability dict appended at `vulnerabilities.append({...})`
in the source; fields in source order. -/
structure Vulnerability where
  type : String
  severity : String
  lines : String
  description : String
  exploit_scenario : String
  recommendation : String
deriving DecidableEq

/-- One gas-optimization dict appended at `gas_optimizations.append({...})`
in the source; fields in source order (`exampleText` is the dict key
`example`, renamed because `example` is a Lean keyword). -/
structure GasOptimization where
  issue : String
  location : String
  current_cost : String
  potential_savings : String
  technique : String
  exampleText : String
deriving DecidableEq

/-- Builds one vulnerability dict from a match:
`{"type": match[0].strip(), "severity": match[1].strip(),
"lines": "Multiple", "description": match[2].strip(),
"exploit_scenario": "See description",
"recommendation": match[3].strip()}`. -/
def vulnOfMatch (m : VulnRaw) : Vulnerability :=
  { type := pyStripS m.g1
    severity := pyStripS m.g2
    lines := "Multiple"
    description := pyStripS m.g3
    exploit_scenario := "See description"
    recommendation := pyStripS m.g4 }

/-- Builds one gas-optimization dict from a match:
`{"issue": match[0].strip(), "location": match[1].strip(),
"current_cost": "N/A", "potential_savings": match[3].strip(),
"technique": match[2].strip(), "example": ""}`. -/
def optOfMatch (m : OptRaw) : GasOptimization :=
  { issue := pyStripS m.g1
    location := pyStripS m.g2
    current_cost := "N/A"
    potential_savings := pyStripS m.g4
    technique := pyStripS m.g3
    exampleText := "" }

/-- Source computation `critical_count * 3 + high_count * 2 +
len(vulnerabilities)` capped at 10, exactly as at the end of
`parse_crew_output` (the counts compare the lowercased severity against
the lowercase names). -/
def severityScoreOf (vulnerabilities : List Vulnerability) : Nat :=
  let critical_count :=
    (vulnerabilities.filter (fun v => lowerS v.severity = "critical")).length
  let high_count :=
    (vulnerabilities.filter (fun v => lowerS v.severity = "high")).length
  min 10 (critical_count * 3 + high_count * 2 + vulnerabilities.length)

/-- The 5-tuple returned by `parse_crew_output`, as a record. -/
structure ParseResult where
  vulnerabilities : List Vulnerability
  gas_optimizations : List GasOptimization
  security_recommendations : List String
  code_quality_score : Nat
  severity_score : Nat
deriving DecidableEq

/-- Embedding of `parse_crew_output(result_text)` from the source.  The Python
initializes `code_quality_score = 70` and `severity_score = 5`; the
quality default survives when no `QUALITY SCORE:` match exists, while the
`5` is dead (unconditionally overwritten by the computed score at the
end). Recommendations are `[r.strip() for r in recs if r.strip()]`
(a Python string is truthy iff nonempty). -/
def parse_crew_output (result_text : String) : ParseResult :=
  let t := result_text.data
  let vulnerabilities := (findallVuln t).map vulnOfMatch
  let gas_optimizations := (findallOpt t).map optOfMatch
  let code_quality_score :=
    match searchScore t with
    | some g => toNatDigits g
    | none => 70
  let security_recommendations :=
    match searchRec t with
    | some rec_text =>
        ((findallRecItem rec_text).map pyStripS).filter (fun r => r ≠ "")
    | none => []
  { vulnerabilities := vulnerabilities
    gas_optimizations := gas_optimizations
    security_recommendations := security_recommendations
    code_quality_score := code_quality_score
    severity_score := severityScoreOf vulnerabilities }

/-! ### Stage definitions (`create_audit_crew`)

The four `Task.description` f-strings; the first three interpolate
`contract_language` and `contract_code[:2000]`, the report task is a
constant string with no code in it. -/

/-- Description of `vulnerability_task` in `create_audit_crew`. -/
def vulnerability_task_description (contract_code contract_language : String) : String :=
  "Analyze this " ++ contract_language ++
  " smart contract for security vulnerabilities.\n\nContract Code:\n```\n" ++
  pyTake 2000 contract_code ++
  "\n```\n\nIdentify vulnerabilities like:\n1. Reentrancy vulnerabilities\n2. Integer overflow/underflow risks\n3. Access control issues\n4. Unchecked external calls\n5. Front-running possibilities\n\nFor each vulnerability, provide:\n- Type and severity (Critical/High/Medium/Low)\n- Description\n- How to fix it\n\nRespond in this format:\nVULNERABILITY 1: [Type] - [Severity]\nDescription: [details]\nFix: [recommendation]\n\nVULNERABILITY 2: [Type] - [Severity]\n...and so on"

/-- Description of `gas_optimization_task` in `create_audit_crew`. -/
def gas_optimization_task_description (contract_code contract_language : String) : String :=
  "Analyze this " ++ contract_language ++
  " smart contract for gas optimization opportunities.\n\nContract Code:\n```\n" ++
  pyTake 2000 contract_code ++
  "\n```\n\nFind optimization opportunities like:\n1. Inefficient storage patterns\n2. Redundant operations\n3. Expensive loops\n\nFor each optimization, provide:\n- Location in code\n- Current issue\n- Optimization technique\n- Estimated savings\n\nRespond in this format:\nOPTIMIZATION 1: [Issue]\nLocation: [where]\nTechnique: [how to fix]\nSavings: [estimate]\n\nOPTIMIZATION 2: ...and so on"

/-- Description of `code_quality_task` in `create_audit_crew`. -/
def code_quality_task_description (contract_code contract_language : String) : String :=
  "Review this " ++ contract_language ++
  " smart contract for code quality.\n\nContract Code:\n```\n" ++
  pyTake 2000 contract_code ++
  "\n```\n\nEvaluate:\n1. Code organization and structure\n2. Naming conventions\n3. Documentation\n4. Best practices\n\nProvide:\n- Quality score (0-100)\n- Issues found\n- Recommendations\n\nRespond in this format:\nQUALITY SCORE: [0-100]\n\nISSUES:\n1. [Issue description]\n2. [Issue description]\n\nRECOMMENDATIONS:\n1. [Recommendation]\n2. [Recommendation]"

/-- Description of `report_task` in `create_audit_crew` (no code embedded). -/
def report_task_description : String :=
  "Create a comprehensive security audit summary.\n\nBased on all previous findings, provide:\n1. Executive summary\n2. Overall risk level (Critical/High/Medium/Low)\n3. Top 3 priority recommendations\n4. Compliance notes\n\nRespond in this format:\nEXECUTIVE SUMMARY:\n[2-3 sentence overview]\n\nRISK LEVEL: [Critical/High/Medium/Low]\n\nPRIORITY RECOMMENDATIONS:\n1. [Most critical action]\n2. [Second priority]\n3. [Third priority]\n\nCOMPLIANCE: [Any standards compliance notes]"

/-! ### `get_llm` -/

/-- The value returned by the `LLM(...)` constructor call in `get_llm`;
the float temperature `0.3` is represented exactly as tenths. -/
structure LLMConfig where
  model : String
  api_key : String
  temperature_tenths : Nat
deriving DecidableEq

/-- Embedding of `get_llm` from the source.  The Python body assigns the
LITERAL STRING `"GEMINI_API_KEY"` to `api_key` (it never calls
`os.getenv`), so the `if not api_key` guard compares a constant nonempty
string against falsiness; `env` models the process environment
(`os.environ`) only so that the configuration claim can be stated — the
body, like the source, ignores it. -/
def get_llm (env : String → Option String) : Except String LLMConfig :=
  let api_key := "GEMINI_API_KEY"
  if api_key = "" then
    Except.error "GEMINI_API_KEY not found in environment variables. Please set it in .env file"
  else
    Except.ok { model := "gemini/gemini-2.0-flash", api_key := api_key, temperature_tenths := 3 }

/-! ### Pipeline orchestration (`create_audit_crew` / `audit_contract`) -/

/-- The stage order fixed by the `tasks=[vulnerability_task,
gas_optimization_task, code_quality_task, report_task]` list passed to
`Crew` with `process=Process.sequential`. -/
def crewTaskOrder : List Nat := [1, 2, 3, 4]

/-- Modelled from the spec: the strictly sequential task execution that
`crew.kickoff()` delegates to the external crewai library
(`Process.sequential`) is not part of this repository, only its
configuration is.  Per the spec, stage k+1 never starts before stage k
returns, and a failing generation call makes the whole run fail with the
underlying error, with no later stage called.  `gen` is the Model Gateway
(one generation call per stage); the first component of the result lists
the stages actually invoked, in order. -/
def runStages (gen : Nat → Except String String) :
    List Nat → List Nat × Except String (List String)
  | [] => ([], Except.ok [])
  | i :: rest =>
    match gen i with
    | Except.error e => ([i], Except.error e)
    | Except.ok out =>
      let p := runStages gen rest
      (i :: p.1,
        match p.2 with
        | Except.error e => Except.error e
        | Except.ok outs => Except.ok (out :: outs))

/-- Modelled from the spec: `crew.kickoff()` — run the four configured
tasks sequentially. -/
def kickoff (gen : Nat → Except String String) :
    List Nat × Except String (List String) :=
  runStages gen crewTaskOrder

/-- The `AuditResult` response model of the source, without the
wall-clock `timestamp` field (captured at assembly time; not part of any
claim). -/
structure AuditResultM where
  contract_name : String
  severity_score : Nat
  vulnerabilities : List Vulnerability
  gas_optimizations : List GasOptimization
  security_recommendations : List String
  code_quality_score : Nat
  detailed_report : String

/-- Embedding of the `audit_contract` handler: run the crew; on any
exception the `except` block re-raises `HTTPException(500, "Audit failed:
...")` and no `AuditResult` is built (modelled as `Except.error`); on
success, `str(result)` is parsed (the transcript is the concatenation of
the stage outputs, modelled from the spec) and the report is assembled
from the parsed fields. -/
def audit_contract (gen : Nat → Except String String)
    (contract_name : String) : Except String AuditResultM :=
  match (kickoff gen).2 with
  | Except.error e => Except.error ("Audit failed: " ++ e)
  | Except.ok outs =>
    let result_text := String.join outs
    let p := parse_crew_output result_text
    Except.ok
      { contract_name := contract_name
        severity_score := p.severity_score
        vulnerabilities := p.vulnerabilities
        gas_optimizations := p.gas_optimizations
        security_recommendations := p.security_recommendations
        code_quality_score := p.code_quality_score
        detailed_report := result_text }

/-! ### Claim theorems -/

/-- The fixed literal transcript of the spec testable property. -/
def c1_transcript : String :=
  "VULNERABILITY 1: Reentrancy - Critical\nDescription: External call before state update.\nFix: Use checks-effects-interactions.\n\nQUALITY SCORE: 85\n\nRECOMMENDATIONS:\n1. Add reentrancy guard\n2. Increase test coverage"

/-- A 1,000,000-character contract. -/
def c7_bigcode : String := String.mk (List.replicate 1000000 'a')

/-- A second 1,000,000-character contract agreeing with `c7_bigcode` on
exactly the first 2000 characters. -/
def c7_bigcode2 : String :=
  String.mk (List.replicate 2000 'a' ++ List.replicate 998000 'b')

/-- A concrete Model Gateway failing exactly at stage 2. -/
def c9_gen : Nat → Except String String :=
  fun i => if i = 1 then Except.ok "stage one text" else Except.error "backend unavailable"

set_option maxRecDepth 100000 in
/-- C1: on the fixed literal transcript, the parser returns exactly one
vulnerability with type "Reentrancy", severity "Critical", description
"External call before state update.", recommendation
"Use checks-effects-interactions.", quality_score = 85,
severity_score = 4, and recommendations
["Add reentrancy guard", "Increase test coverage"]. -/
theorem c1_fixed_transcript_parse :
    parse_crew_output c1_transcript =
      ⟨[⟨"Reentrancy", "Critical", "Multiple",
         "External call before state update.", "See description",
         "Use checks-effects-interactions."⟩],
       [], ["Add reentrancy guard", "Increase test coverage"], 85, 4⟩ := by
  decide

/-- C6: parsing the empty transcript returns an empty vulnerability list,
an empty gas-optimization list, an empty recommendations list,
quality_score = 70, and severity_score = 0. -/
theorem c6_parse_empty_transcript :
    parse_crew_output "" = ⟨[], [], [], 70, 0⟩ := by
  decide

/-- C5: the claim says `get_llm` fails with a configuration error when no
backend credential is configured; in the code, however, `api_key` is the
literal string "GEMINI_API_KEY" — always nonempty — so `get_llm`
succeeds for every process environment, including one with no credential
configured at all. -/
theorem c5_get_llm_never_fails (env : String → Option String) :
    get_llm env =
      Except.ok { model := "gemini/gemini-2.0-flash",
                  api_key := "GEMINI_API_KEY", temperature_tenths := 3 } := rfl

/-- C3 counterexample: on the transcript "QUALITY SCORE: 150" the parser
returns code_quality_score = 150, outside the claimed range [0,100]. -/
theorem c3_counterexample_quality_not_clamped :
    (parse_crew_output "QUALITY SCORE: 150").code_quality_score = 150 ∧
    ¬ (parse_crew_output "QUALITY SCORE: 150").code_quality_score ≤ 100 := by
  decide

/-- C3 amended: the code_quality_score is a non-negative integer equal to
the value of the first `QUALITY SCORE: <int>` match (it is NOT clamped to
100), and it is 70 whenever no quality score can be parsed from the
transcript. -/
theorem c3_amended_quality_score (s : String) :
    (searchScore s.data = none →
      (parse_crew_output s).code_quality_score = 70) ∧
    (∀ g, searchScore s.data = some g →
      (parse_crew_output s).code_quality_score = toNatDigits g) := by
  constructor
  · intro h
    simp only [parse_crew_output, h]
  · intro g h
    simp only [parse_crew_output, h]

/-- C3 amended, witness: both branches at concrete transcripts. -/
theorem c3_amended_quality_score_witness :
    (searchScore "no score here".data = none ∧
      (parse_crew_output "no score here").code_quality_score = 70) ∧
    (searchScore "QUALITY SCORE: 150".data = some "150".data ∧
      (parse_crew_output "QUALITY SCORE: 150").code_quality_score =
        toNatDigits "150".data) :=
  ⟨⟨by decide, (c3_amended_quality_score "no score here").1 (by decide)⟩,
   ⟨by decide,
    (c3_amended_quality_score "QUALITY SCORE: 150").2 "150".data (by decide)⟩⟩

/-- C7: each code-bearing stage prompt depends only on the first 2000
characters of the source code (the same prefix always yields the same
prompt — deterministic truncation), and the embedded prefix has at most
2000 characters. -/
theorem c7_stage_prompts_bounded (code code2 lang : String)
    (h : code.data.take 2000 = code2.data.take 2000) :
    vulnerability_task_description code lang =
      vulnerability_task_description code2 lang ∧
    gas_optimization_task_description code lang =
      gas_optimization_task_description code2 lang ∧
    code_quality_task_description code lang =
      code_quality_task_description code2 lang ∧
    (pyTake 2000 code).data.length ≤ 2000 := by
  have hp : pyTake 2000 code = pyTake 2000 code2 := congrArg String.mk h
  refine ⟨?_, ?_, ?_, ?_⟩
  · simp only [vulnerability_task_description, hp]
  · simp only [gas_optimization_task_description, hp]
  · simp only [code_quality_task_description, hp]
  · exact List.length_take_le 2000 code.data

/-- C7 witness: the theorem applied to two distinct million-character
contracts sharing their first 2000 characters. -/
theorem c7_stage_prompts_bounded_witness :
    (c7_bigcode.data.take 2000 = c7_bigcode2.data.take 2000) ∧
    (vulnerability_task_description c7_bigcode "Solidity" =
       vulnerability_task_description c7_bigcode2 "Solidity" ∧
     gas_optimization_task_description c7_bigcode "Solidity" =
       gas_optimization_task_description c7_bigcode2 "Solidity" ∧
     code_quality_task_description c7_bigcode "Solidity" =
       code_quality_task_description c7_bigcode2 "Solidity" ∧
     (pyTake 2000 c7_bigcode).data.length ≤ 2000) := by
  have h : c7_bigcode.data.take 2000 = c7_bigcode2.data.take 2000 := by
    show (List.replicate 1000000 'a').take 2000 =
      (List.replicate 2000 'a' ++ List.replicate 998000 'b').take 2000
    have hlen : (2000 : Nat) ≤ (List.replicate 2000 'a').length := by
      rw [List.length_replicate]
    rw [List.take_append_of_le_length hlen,
        List.take_replicate, List.take_replicate]
    congr 1
  exact ⟨h, c7_stage_prompts_bounded c7_bigcode c7_bigcode2 "Solidity" h⟩

/-- C2: for every transcript the severity_score equals
min(10, 3 * criticalCount + 2 * highCount + totalCount) over the
extracted vulnerabilities; in particular it never exceeds 10, and the
scoring function is monotonically non-decreasing in the counts. -/
theorem c2_severity_score_formula (s : String) (c h t c2 h2 t2 : Nat)
    (hc : c ≤ c2) (hh : h ≤ h2) (ht : t ≤ t2) :
    (parse_crew_output s).severity_score =
      min 10 (3 * ((parse_crew_output s).vulnerabilities.filter
          (fun v => lowerS v.severity = "critical")).length
        + 2 * ((parse_crew_output s).vulnerabilities.filter
          (fun v => lowerS v.severity = "high")).length
        + (parse_crew_output s).vulnerabilities.length) ∧
    (parse_crew_output s).severity_score ≤ 10 ∧
    min 10 (3 * c + 2 * h + t) ≤ min 10 (3 * c2 + 2 * h2 + t2) := by
  have h1 : (parse_crew_output s).severity_score =
      min 10 (((parse_crew_output s).vulnerabilities.filter
          (fun v => lowerS v.severity = "critical")).length * 3
        + ((parse_crew_output s).vulnerabilities.filter
          (fun v => lowerS v.severity = "high")).length * 2
        + (parse_crew_output s).vulnerabilities.length) := rfl
  exact ⟨by omega, by omega, by omega⟩

/-- C2 witness: the formula, cap and monotonicity instantiated on the
fixed transcript of C1 and concrete counts. -/
theorem c2_severity_score_formula_witness :
    (0 ≤ 5 ∧ 0 ≤ 5 ∧ 0 ≤ 10) ∧
    ((parse_crew_output c1_transcript).severity_score =
      min 10 (3 * ((parse_crew_output c1_transcript).vulnerabilities.filter
          (fun v => lowerS v.severity = "critical")).length
        + 2 * ((parse_crew_output c1_transcript).vulnerabilities.filter
          (fun v => lowerS v.severity = "high")).length
        + (parse_crew_output c1_transcript).vulnerabilities.length) ∧
    (parse_crew_output c1_transcript).severity_score ≤ 10 ∧
    min 10 (3 * 0 + 2 * 0 + 0) ≤ min 10 (3 * 5 + 2 * 5 + 10)) :=
  ⟨⟨Nat.zero_le 5, Nat.zero_le 5, Nat.zero_le 10⟩,
   c2_severity_score_formula c1_transcript 0 0 0 5 5 10
     (Nat.zero_le 5) (Nat.zero_le 5) (Nat.zero_le 10)⟩

/-- C8: the parser is total (it is a plain Lean function on all of
`String`), and whenever none of the four patterns matches it returns the
empty collections and default scores. -/
theorem c8_parse_total_default (s : String)
    (h1 : findallVuln s.data = []) (h2 : findallOpt s.data = [])
    (h3 : searchScore s.data = none) (h4 : searchRec s.data = none) :
    parse_crew_output s = ⟨[], [], [], 70, 0⟩ := by
  simp [parse_crew_output, severityScoreOf, h1, h2, h3, h4]

/-- C8 witness: a malformed transcript matching none of the patterns. -/
theorem c8_parse_total_default_witness :
    (findallVuln "garbage model output %%".data = [] ∧
     findallOpt "garbage model output %%".data = [] ∧
     searchScore "garbage model output %%".data = none ∧
     searchRec "garbage model output %%".data = none) ∧
    parse_crew_output "garbage model output %%" = ⟨[], [], [], 70, 0⟩ :=
  ⟨⟨by decide, by decide, by decide, by decide⟩,
   c8_parse_total_default "garbage model output %%"
     (by decide) (by decide) (by decide) (by decide)⟩

/-- C9: if the stage-2 generation call fails, stages 3 and 4 are never
invoked, the kickoff surfaces the underlying error, and `audit_contract`
produces no report — it fails carrying the underlying error. -/
theorem c9_stage2_failure_stops_pipeline (gen : Nat → Except String String)
    (nm a e : String)
    (h1 : gen 1 = Except.ok a) (h2 : gen 2 = Except.error e) :
    (kickoff gen).1 = [1, 2] ∧
    3 ∉ (kickoff gen).1 ∧ 4 ∉ (kickoff gen).1 ∧
    (kickoff gen).2 = Except.error e ∧
    audit_contract gen nm = Except.error ("Audit failed: " ++ e) := by
  have hk : kickoff gen = ([1, 2], Except.error e) := by
    simp [kickoff, crewTaskOrder, runStages, h1, h2]
  have h1k : (kickoff gen).1 = [1, 2] := by rw [hk]
  refine ⟨h1k, by rw [h1k]; decide, by rw [h1k]; decide, by rw [hk], ?_⟩
  simp [audit_contract, hk]

/-- C9 witness: the theorem at the concrete gateway. -/
theorem c9_stage2_failure_stops_pipeline_witness :
    (c9_gen 1 = Except.ok "stage one text" ∧
     c9_gen 2 = Except.error "backend unavailable") ∧
    ((kickoff c9_gen).1 = [1, 2] ∧
     3 ∉ (kickoff c9_gen).1 ∧ 4 ∉ (kickoff c9_gen).1 ∧
     (kickoff c9_gen).2 = Except.error "backend unavailable" ∧
     audit_contract c9_gen "Vault" =
       Except.error ("Audit failed: " ++ "backend unavailable")) :=
  ⟨⟨rfl, rfl⟩,
   c9_stage2_failure_stops_pipeline c9_gen "Vault" "stage one text"
     "backend unavailable" rfl rfl⟩

/-! ### Inversion lemmas for the matcher combinators (used for C4/C10) -/

theorem litCI_some {α : Type} {pat s : List Char} {k : List Char → Option α}
    {r : α} (h : litCI pat s k = some r) : ∃ s2, k s2 = some r := by
  induction pat generalizing s with
  | nil => exact ⟨s, h⟩
  | cons p ps ih =>
    cases s with
    | nil => rw [litCI] at h; exact absurd h (by simp)
    | cons c cs =>
      rw [litCI] at h
      split at h
      · exact ih h
      · exact absurd h (by simp)

theorem starGreedy_some {α : Type} {cls : Char → Bool} {s : List Char}
    {k : List Char → Option α} {r : α}
    (h : starGreedy cls s k = some r) : ∃ s2, k s2 = some r := by
  induction s with
  | nil => rw [starGreedy] at h; exact ⟨[], h⟩
  | cons c cs ih =>
    rw [starGreedy] at h
    split at h
    · cases hm : starGreedy cls cs k with
      | some r2 => rw [hm] at h; simp at h; subst h; exact ih hm
      | none => rw [hm] at h; simp at h; exact ⟨c :: cs, h⟩
    · exact ⟨c :: cs, h⟩

theorem plusGreedy_some {α : Type} {cls : Char → Bool} {s : List Char}
    {k : List Char → Option α} {r : α}
    (h : plusGreedy cls s k = some r) : ∃ s2, k s2 = some r := by
  cases s with
  | nil => rw [plusGreedy] at h; exact absurd h (by simp)
  | cons c cs =>
    rw [plusGreedy] at h
    split at h
    · exact starGreedy_some h
    · exact absurd h (by simp)

theorem plusLazyCap_some {α : Type} {acc s : List Char}
    {k : List Char → List Char → Option α} {r : α}
    (h : plusLazyCap acc s k = some r) : ∃ g s2, k g s2 = some r := by
  induction s generalizing acc with
  | nil =>
    rw [plusLazyCap] at h
    cases hm : k acc.reverse [] with
    | some r2 => rw [hm] at h; simp at h; subst h; exact ⟨acc.reverse, [], hm⟩
    | none => rw [hm] at h; simp at h
  | cons c cs ih =>
    rw [plusLazyCap] at h
    cases hm : k acc.reverse (c :: cs) with
    | some r2 =>
      rw [hm] at h; simp at h; subst h; exact ⟨acc.reverse, c :: cs, hm⟩
    | none => rw [hm] at h; simp at h; exact ih h

theorem dotPlusLazy_some {α : Type} {s : List Char}
    {k : List Char → List Char → Option α} {r : α}
    (h : dotPlusLazy s k = some r) : ∃ g s2, k g s2 = some r := by
  cases s with
  | nil => rw [dotPlusLazy] at h; exact absurd h (by simp)
  | cons c cs => rw [dotPlusLazy] at h; exact plusLazyCap_some h

theorem altCapCI_some {α : Type} {pats : List (List Char)} {s : List Char}
    {k : List Char → List Char → Option α} {r : α}
    (h : altCapCI pats s k = some r) :
    ∃ p ∈ pats, ciStarts p s = true ∧
      k (s.take p.length) (s.drop p.length) = some r := by
  induction pats with
  | nil => rw [altCapCI] at h; exact absurd h (by simp)
  | cons p ps ih =>
    rw [altCapCI] at h
    split at h
    · cases hm : k (s.take p.length) (s.drop p.length) with
      | some r2 =>
        rw [hm] at h; simp at h; subst h
        exact ⟨p, by simp, by assumption, hm⟩
      | none =>
        rw [hm] at h; simp at h
        obtain ⟨q, hq, hst, hk⟩ := ih h
        exact ⟨q, by simp [hq], hst, hk⟩
    · obtain ⟨q, hq, hst, hk⟩ := ih h
      exact ⟨q, by simp [hq], hst, hk⟩

/-- Every vulnerability in a scan result comes from a successful
anchored match. -/
theorem mem_scanVuln {fuel : Nat} {s : List Char} {m : VulnRaw}
    (h : m ∈ scanVuln fuel s) :
    ∃ s2 rest, matchVulnAt s2 = some (m, rest) := by
  induction fuel generalizing s with
  | zero => simp only [scanVuln] at h; exact absurd h (by simp)
  | succ n ih =>
    simp only [scanVuln] at h
    split at h
    · next m2 rest2 heq =>
      rcases List.mem_cons.mp h with h1 | h1
      · subst h1; exact ⟨s, rest2, heq⟩
      · exact ih h1
    · split at h
      · exact absurd h (by simp)
      · exact ih h

/-- A case-insensitive prefix match means the consumed input prefix
agrees with the pattern up to lowercasing. -/
theorem ciStarts_take {p s : List Char} (h : ciStarts p s = true) :
    (s.take p.length).map Char.toLower = p.map Char.toLower := by
  induction p generalizing s with
  | nil => simp
  | cons a ps ih =>
    cases s with
    | nil => simp [ciStarts] at h
    | cons c cs =>
      simp only [ciStarts, Bool.and_eq_true, decide_eq_true_eq] at h
      simp only [List.length_cons, List.take_succ_cons, List.map_cons]
      rw [h.1, ih h.2]

/-- Lowercasing fixes whitespace characters. -/
theorem toLower_of_pySpace {c : Char} (h : isPySpace c = true) :
    c.toLower = c := by
  have h2 : c = ' ' ∨ c = '\t' ∨ c = '\n' ∨ c = '\r' ∨
      c = '\x0b' ∨ c = '\x0c' := by
    simp only [isPySpace, Bool.or_eq_true, decide_eq_true_eq] at h
    tauto
  rcases h2 with h2 | h2 | h2 | h2 | h2 | h2 <;> subst h2 <;> decide

theorem dropWhile_eq_self_of {p : Char → Bool} {l : List Char}
    (h : ∀ c ∈ l, p c = false) : l.dropWhile p = l := by
  cases l with
  | nil => rfl
  | cons a t => simp [List.dropWhile_cons, h a (List.mem_cons_self a t)]

/-- Python strip is the identity on strings with no whitespace at all. -/
theorem pyStrip_eq_self {l : List Char} (h : ∀ c ∈ l, isPySpace c = false) :
    pyStrip l = l := by
  unfold pyStrip
  rw [dropWhile_eq_self_of h,
      dropWhile_eq_self_of (fun c hc => h c (List.mem_reverse.mp hc)),
      List.reverse_reverse]

/-- A capture that lowercases to a whitespace-free word is unchanged by
strip, and lowercases to that word as a string. -/
theorem lowerS_pyStripS_eq {g p : List Char} {low : String}
    (hmap : g.map Char.toLower = p.map Char.toLower)
    (hplow : p.map Char.toLower = low.data)
    (hns : ∀ c ∈ low.data, isPySpace c = false) :
    lowerS (pyStripS g) = low := by
  have hnospace : ∀ c ∈ g, isPySpace c = false := by
    intro c hc
    by_contra hsp
    rw [Bool.not_eq_false] at hsp
    have hc2 : c.toLower ∈ g.map Char.toLower := List.mem_map_of_mem _ hc
    rw [hmap, hplow] at hc2
    rw [toLower_of_pySpace hsp] at hc2
    have hcontra := hns c hc2
    rw [hsp] at hcontra
    exact Bool.noConfusion hcontra
  have hstrip : pyStrip g = g := pyStrip_eq_self hnospace
  show String.mk ((pyStrip g).map Char.toLower) = low
  rw [hstrip, hmap, hplow]

/-- The severity capture of any successful vulnerability match is a
case-insensitive copy of one of the four alternation literals. -/
theorem matchVulnAt_severity {s : List Char} {m : VulnRaw} {rest : List Char}
    (h : matchVulnAt s = some (m, rest)) :
    ∃ p ∈ ["Critical".data, "High".data, "Medium".data, "Low".data],
      m.g2.map Char.toLower = p.map Char.toLower := by
  rw [matchVulnAt] at h
  obtain ⟨s1, h⟩ := litCI_some h
  obtain ⟨s2, h⟩ := plusGreedy_some h
  obtain ⟨s3, h⟩ := litCI_some h
  obtain ⟨g1, s4, h⟩ := dotPlusLazy_some h
  obtain ⟨s5, h⟩ := litCI_some h
  obtain ⟨p, hp, hst, h⟩ := altCapCI_some h
  obtain ⟨s7, h⟩ := starGreedy_some h
  obtain ⟨s8, h⟩ := litCI_some h
  obtain ⟨g3, s9, h⟩ := dotPlusLazy_some h
  obtain ⟨s10, h⟩ := starGreedy_some h
  obtain ⟨s11, h⟩ := litCI_some h
  obtain ⟨g4, s12, h⟩ := dotPlusLazy_some h
  split at h
  · simp only [Option.some.injEq, Prod.mk.injEq] at h
    obtain ⟨hm, -⟩ := h
    subst hm
    exact ⟨p, hp, ciStarts_take hst⟩
  · exact absurd h (by simp)

/-- C4 counterexample: a VULNERABILITY block with the unrecognized
severity string "Severe" is NOT extracted — the parser returns zero
vulnerabilities, not a finding carrying "Severe" verbatim. -/
theorem c4_counterexample_unrecognized_severity_dropped :
    (parse_crew_output
      "VULNERABILITY 1: Reentrancy - Severe\nDescription: d\nFix: f").vulnerabilities = [] := by
  decide

/-- C4 amended: over transcripts consisting solely of ASCII characters
(on which CPython case-insensitive matching and `str.lower` coincide
with the ASCII case mapping modelled here), a block is extracted only
when its severity is a case-insensitive match of
Critical/High/Medium/Low — blocks with any other severity string, such
as "Severe", are silently dropped rather than carried verbatim — and a
matched severity is carried verbatim, possibly in a different case, so
every extracted severity lowercases to one of the four enum values.
Non-ASCII Unicode case variants (e.g. a severity spelled with U+0130,
which CPython also extracts and whose `lower()` falls outside the enum)
are outside the scope of this statement. -/
theorem c4_amended_severity_closed_enum (s : String) (v : Vulnerability)
    (hascii : ∀ c ∈ s.data, c.toNat < 128)
    (hv : v ∈ (parse_crew_output s).vulnerabilities) :
    lowerS v.severity = "critical" ∨ lowerS v.severity = "high" ∨
    lowerS v.severity = "medium" ∨ lowerS v.severity = "low" := by
  have hv2 : v ∈ (findallVuln s.data).map vulnOfMatch := hv
  obtain ⟨m, hm, rfl⟩ := List.mem_map.mp hv2
  obtain ⟨s2, rest, hmat⟩ :=
    mem_scanVuln (show m ∈ scanVuln (s.data.length + 1) s.data from hm)
  obtain ⟨p, hp, hmap⟩ := matchVulnAt_severity hmat
  have hsev : (vulnOfMatch m).severity = pyStripS m.g2 := rfl
  rw [hsev]
  fin_cases hp
  · exact Or.inl (lowerS_pyStripS_eq hmap (by decide) (by decide))
  · exact Or.inr (Or.inl (lowerS_pyStripS_eq hmap (by decide) (by decide)))
  · exact Or.inr (Or.inr (Or.inl (lowerS_pyStripS_eq hmap (by decide) (by decide))))
  · exact Or.inr (Or.inr (Or.inr (lowerS_pyStripS_eq hmap (by decide) (by decide))))

set_option maxRecDepth 100000 in
/-- C4 amended, witness: an ASCII transcript whose severity written
"CRITICAL" is extracted and carried verbatim in its original case,
lowercasing to "critical". -/
theorem c4_amended_severity_closed_enum_witness :
    ((∀ c ∈ ("VULNERABILITY 1: X - CRITICAL\nDescription: d\nFix: f" : String).data,
        c.toNat < 128) ∧
     (⟨"X", "CRITICAL", "Multiple", "d", "See description", "f"⟩ : Vulnerability) ∈
      (parse_crew_output
        "VULNERABILITY 1: X - CRITICAL\nDescription: d\nFix: f").vulnerabilities) ∧
    (lowerS "CRITICAL" = "critical" ∨ lowerS "CRITICAL" = "high" ∨
     lowerS "CRITICAL" = "medium" ∨ lowerS "CRITICAL" = "low") :=
  ⟨⟨by decide, by decide⟩,
   c4_amended_severity_closed_enum
     "VULNERABILITY 1: X - CRITICAL\nDescription: d\nFix: f"
     ⟨"X", "CRITICAL", "Multiple", "d", "See description", "f"⟩
     (by decide) (by decide)⟩

/-- C10: for every transcript, every vulnerability record carries the
constants lines = "Multiple" and exploit_scenario = "See description",
and every gas-optimization record carries the constants
current_cost = "N/A" and example = "" — independent of transcript
content, and independently of whether records of the other kind exist. -/
theorem c10_constant_fields (s : String) :
    (∀ v ∈ (parse_crew_output s).vulnerabilities,
      v.lines = "Multiple" ∧ v.exploit_scenario = "See description") ∧
    (∀ g ∈ (parse_crew_output s).gas_optimizations,
      g.current_cost = "N/A" ∧ g.exampleText = "") := by
  constructor
  · intro v hv
    have hv2 : v ∈ (findallVuln s.data).map vulnOfMatch := hv
    obtain ⟨m, -, rfl⟩ := List.mem_map.mp hv2
    exact ⟨rfl, rfl⟩
  · intro g hg
    have hg2 : g ∈ (findallOpt s.data).map optOfMatch := hg
    obtain ⟨m, -, rfl⟩ := List.mem_map.mp hg2
    exact ⟨rfl, rfl⟩

set_option maxRecDepth 200000 in
/-- C10 witness: both halves of the theorem instantiated on a transcript
containing one vulnerability and one gas-optimization block, at a
concrete member each. -/
theorem c10_constant_fields_witness :
    ((⟨"X", "Low", "Multiple", "d", "See description", "f"⟩ : Vulnerability) ∈
      (parse_crew_output
        "VULNERABILITY 1: X - Low\nDescription: d\nFix: f\nOPTIMIZATION 1: Loop\nLocation: l\nTechnique: t\nSavings: s").vulnerabilities ∧
     (⟨"Loop", "l", "N/A", "s", "t", ""⟩ : GasOptimization) ∈
      (parse_crew_output
        "VULNERABILITY 1: X - Low\nDescription: d\nFix: f\nOPTIMIZATION 1: Loop\nLocation: l\nTechnique: t\nSavings: s").gas_optimizations) ∧
    (("Multiple" = "Multiple" ∧ "See description" = "See description") ∧
     ("N/A" = "N/A" ∧ "" = "")) :=
  ⟨⟨by decide, by decide⟩,
   ⟨(c10_constant_fields
       "VULNERABILITY 1: X - Low\nDescription: d\nFix: f\nOPTIMIZATION 1: Loop\nLocation: l\nTechnique: t\nSavings: s").1
      ⟨"X", "Low", "Multiple", "d", "See description", "f"⟩ (by decide),
    (c10_constant_fields
       "VULNERABILITY 1: X - Low\nDescription: d\nFix: f\nOPTIMIZATION 1: Loop\nLocation: l\nTechnique: t\nSavings: s").2
      ⟨"Loop", "l", "N/A", "s", "t", ""⟩ (by decide)⟩⟩
